import Mathlib

/-!
Shallow embedding of the request-lifecycle engine of the LLM reverse proxy:
key providers (Moonshot), the shared key pool operations, the context-size
validation preprocessor, per-service upstream error handlers, the SSE
message transformer and the info-page cache.  Each definition mirrors one
function of the TypeScript source; theorems at the end settle the frozen
claims about the specification.
-/

/- ---------------------------------------------------------------------
   A small regular-expression engine (Brzozowski derivatives).

   The source relies on JavaScript `String.prototype.match(regex)` for its
   ordered model tables.  We embed the exact patterns with this engine:
   `Cc` is a character class, `Rx` a regular expression, and `JsRegex`
   wraps a body with the `^` / `$` anchoring mode of the JS pattern, so
   that `JsRegex.test` has JS search semantics (unanchored patterns match
   anywhere in the string).
   --------------------------------------------------------------------- -/

/-- Character classes appearing in the source's regexes:
a literal character, `\d`, `\w`, `[\w-]`, `[0-9]` and `.`(any). -/
inductive Cc where
  | lit : Char → Cc
  | digit : Cc
  | wordc : Cc
  | wordDash : Cc
  | anyc : Cc
deriving DecidableEq, Repr

def Cc.testc : Cc → Char → Bool
  | .lit c, a => a = c
  | .digit, a => a.isDigit
  | .wordc, a => a.isAlphanum || a = '_'
  | .wordDash, a => a.isAlphanum || a = '_' || a = '-'
  | .anyc, _ => true

/-- Regular expressions: empty language, empty string, character class,
concatenation, alternation, Kleene star. -/
inductive Rx where
  | emp : Rx
  | eps : Rx
  | cls : Cc → Rx
  | cat : Rx → Rx → Rx
  | alt : Rx → Rx → Rx
  | star : Rx → Rx
deriving DecidableEq, Repr

def Rx.nullable : Rx → Bool
  | .emp => false
  | .eps => true
  | .cls _ => false
  | .cat a b => a.nullable && b.nullable
  | .alt a b => a.nullable || b.nullable
  | .star _ => true

/-- Smart concatenation: annihilates on `emp`, simplifies `eps`. -/
def rcat : Rx → Rx → Rx
  | .emp, _ => .emp
  | .eps, b => b
  | a, b =>
    match b with
    | .emp => .emp
    | .eps => a
    | _ => .cat a b

/-- Smart alternation: drops `emp` branches. -/
def ralt : Rx → Rx → Rx
  | .emp, b => b
  | a, b =>
    match b with
    | .emp => a
    | _ => .alt a b

/-- Brzozowski derivative with respect to one character. -/
def Rx.deriv : Rx → Char → Rx
  | .emp, _ => .emp
  | .eps, _ => .emp
  | .cls k, a => if k.testc a then .eps else .emp
  | .cat r s, a =>
    if r.nullable then ralt (rcat (r.deriv a) s) (s.deriv a)
    else rcat (r.deriv a) s
  | .alt r s, a => ralt (r.deriv a) (s.deriv a)
  | .star r, a => rcat (r.deriv a) (.star r)

/-- Whole-list match (`^...$` anchoring). -/
def rxFull (r : Rx) : List Char → Bool
  | [] => r.nullable
  | a :: s => rxFull (r.deriv a) s

/-- Match of some initial segment (`^...` anchoring, no `$`). -/
def rxFromStart (r : Rx) : List Char → Bool
  | [] => r.nullable
  | a :: s => r.nullable || rxFromStart (r.deriv a) s

/-- Match anywhere in the list (no anchors). -/
def rxSearch (r : Rx) : List Char → Bool
  | [] => r.nullable
  | a :: s => rxFromStart r (a :: s) || rxSearch r s

/-- Match of some final segment (`...$` anchoring, no `^`). -/
def rxEndsWith (r : Rx) : List Char → Bool
  | [] => r.nullable
  | a :: s => rxFull r (a :: s) || rxEndsWith r s

/-- A JS regex: a body plus its `^` / `$` anchoring mode. -/
structure JsRegex where
  anchorStart : Bool
  body : Rx
  anchorEnd : Bool
deriving DecidableEq, Repr

/-- `re.test s` with JavaScript `String.prototype.match` truthiness
semantics (unanchored patterns search the whole string). -/
def JsRegex.test (re : JsRegex) (s : String) : Bool :=
  match re.anchorStart, re.anchorEnd with
  | true, true => rxFull re.body s.data
  | true, false => rxFromStart re.body s.data
  | false, true => rxEndsWith re.body s.data
  | false, false => rxSearch re.body s.data

/- Constructors used to transcribe the source's patterns. -/

def rstr (s : String) : Rx :=
  s.data.foldr (fun c acc => Rx.cat (Rx.cls (Cc.lit c)) acc) Rx.eps

def ropt (r : Rx) : Rx := Rx.alt Rx.eps r

def rrep (r : Rx) : Nat → Rx
  | 0 => Rx.eps
  | n + 1 => Rx.cat r (rrep r n)

/-- `\d{n}` -/
def rdig (n : Nat) : Rx := rrep (Rx.cls Cc.digit) n

/-- `\d+` -/
def rdigits1 : Rx := Rx.cat (Rx.cls Cc.digit) (Rx.star (Rx.cls Cc.digit))

/-- `-\d{4}-\d{2}-\d{2}`, the date suffix used throughout the tables. -/
def rdate : Rx :=
  Rx.cat (Rx.cls (Cc.lit '-')) (Rx.cat (rdig 4)
    (Rx.cat (Rx.cls (Cc.lit '-')) (Rx.cat (rdig 2)
      (Rx.cat (Rx.cls (Cc.lit '-')) (rdig 2)))))

/- ---------------------------------------------------------------------
   String helpers mirroring the JavaScript string operations used by the
   source (`includes`, `startsWith`, case-insensitive regex tests, and
   first-occurrence `replace`).
   --------------------------------------------------------------------- -/

/-- Whether `pat` occurs as a contiguous segment of `l`. -/
def containsSeq (pat : List Char) : List Char → Bool
  | [] => pat.isEmpty
  | a :: s => pat.isPrefixOf (a :: s) || containsSeq pat s

/-- JS `s.includes(pat)`. -/
def strContains (s pat : String) : Bool := containsSeq pat.data s.data

/-- JS `s.startsWith(pat)`. -/
def strStarts (s pat : String) : Bool := pat.data.isPrefixOf s.data

/-- Truthiness of `s.match(/pat/i)` for a plain-text pattern. -/
def ciContains (s pat : String) : Bool :=
  containsSeq (pat.data.map Char.toLower) (s.data.map Char.toLower)

/-- Truthiness of `s.match(/^pat/i)` for a plain-text pattern. -/
def ciStarts (s pat : String) : Bool :=
  (pat.data.map Char.toLower).isPrefixOf (s.data.map Char.toLower)

def replaceFirstAux (pat rep : List Char) : List Char → List Char
  | [] => []
  | a :: s =>
    if pat.isPrefixOf (a :: s) then rep ++ (a :: s).drop pat.length
    else a :: replaceFirstAux pat rep s

/-- JS `s.replace(pat, rep)` with a string pattern: replaces the first
occurrence only. -/
def replaceFirstStr (s pat rep : String) : String :=
  ⟨replaceFirstAux pat.data rep.data s.data⟩

/- ---------------------------------------------------------------------
   Model families and services (src/shared/models.ts).
   --------------------------------------------------------------------- -/

inductive OpenAIModelFamily where
  | turbo | gpt4 | gpt4_32k | gpt4_turbo | gpt4o | gpt41 | gpt41_mini
  | gpt41_nano | gpt45 | o1 | o1_mini | o1_pro | o3_pro | o3_mini | o3
  | o4_mini | codex_mini | dall_e | gpt_image
deriving DecidableEq, Repr

inductive AnthropicModelFamily where
  | claude | claudeOpus
deriving DecidableEq, Repr

inductive GoogleAIModelFamily where
  | geminiFlash | geminiPro | geminiUltra
deriving DecidableEq, Repr

inductive MistralAIModelFamily where
  | mistralTiny | mistralSmall | mistralMedium | mistralLarge
deriving DecidableEq, Repr

/-- `AwsBedrockModelFamily = aws-(AnthropicModelFamily | MistralAIModelFamily)`. -/
inductive AwsBedrockModelFamily where
  | awsClaude : AnthropicModelFamily → AwsBedrockModelFamily
  | awsMistral : MistralAIModelFamily → AwsBedrockModelFamily
deriving DecidableEq, Repr

/-- `GcpModelFamily = "gcp-claude" | "gcp-claude-opus"`. -/
inductive GcpModelFamily where
  | gcpClaude | gcpClaudeOpus
deriving DecidableEq, Repr

/-- The tagged union `ModelFamily` of src/shared/models.ts.  Azure families
are the OpenAI families prefixed `azure-`. -/
inductive ModelFamily where
  | openai : OpenAIModelFamily → ModelFamily
  | anthropic : AnthropicModelFamily → ModelFamily
  | googleAI : GoogleAIModelFamily → ModelFamily
  | mistral : MistralAIModelFamily → ModelFamily
  | aws : AwsBedrockModelFamily → ModelFamily
  | gcp : GcpModelFamily → ModelFamily
  | azure : OpenAIModelFamily → ModelFamily
  | deepseek : ModelFamily
  | xai : ModelFamily
  | cohere : ModelFamily
  | qwen : ModelFamily
deriving DecidableEq, Repr

/-- `LLMService` of src/shared/models.ts (that module predates the
moonshot provider and does not list it). -/
inductive LLMService where
  | openai | anthropic | googleAI | mistralAI | aws | gcp | azure
  | deepseek | xai | cohere | qwen
deriving DecidableEq, Repr

/-- `APIFormat` tags taken from the `outboundApi` case analyses. -/
inductive APIFormat where
  | openai | openaiText | openaiImage | openaiResponses
  | anthropicChat | anthropicText
  | googleAIFmt | mistralAIFmt | mistralText
deriving DecidableEq, Repr

/-- `OPENAI_MODEL_FAMILY_MAP` in source order.  The patterns are object
keys (plain JS strings), so `\\d` is the digit class while the single
`\d` in the `codex-mini` entry denotes a literal `d`. -/
def OPENAI_MODEL_FAMILY_MAP : List (JsRegex × OpenAIModelFamily) :=
  [ -- "^gpt-image(-\\d+)?(-preview)?(-\\d{4}-\\d{2}-\\d{2})?$"
    (⟨true, Rx.cat (rstr "gpt-image")
        (Rx.cat (ropt (Rx.cat (Rx.cls (Cc.lit '-')) rdigits1))
          (Rx.cat (ropt (rstr "-preview")) (ropt rdate))), true⟩,
      .gpt_image),
    -- "^gpt-4\\.5(-preview)?(-\\d{4}-\\d{2}-\\d{2})?$"
    (⟨true, Rx.cat (rstr "gpt-4.5")
        (Rx.cat (ropt (rstr "-preview")) (ropt rdate)), true⟩, .gpt45),
    -- "^gpt-4\\.1(-\\d{4}-\\d{2}-\\d{2})?$"
    (⟨true, Rx.cat (rstr "gpt-4.1") (ropt rdate), true⟩, .gpt41),
    -- "^gpt-4\\.1-mini(-\\d{4}-\\d{2}-\\d{2})?$"
    (⟨true, Rx.cat (rstr "gpt-4.1-mini") (ropt rdate), true⟩, .gpt41_mini),
    -- "^gpt-4\\.1-nano(-\\d{4}-\\d{2}-\\d{2})?$"
    (⟨true, Rx.cat (rstr "gpt-4.1-nano") (ropt rdate), true⟩, .gpt41_nano),
    -- "^gpt-4o(-\\d{4}-\\d{2}-\\d{2})?$"
    (⟨true, Rx.cat (rstr "gpt-4o") (ropt rdate), true⟩, .gpt4o),
    -- "^chatgpt-4o"
    (⟨true, rstr "chatgpt-4o", false⟩, .gpt4o),
    -- "^gpt-4o-mini(-\\d{4}-\\d{2}-\\d{2})?$"
    (⟨true, Rx.cat (rstr "gpt-4o-mini") (ropt rdate), true⟩, .turbo),
    -- "^gpt-4-turbo(-\\d{4}-\\d{2}-\\d{2})?$"
    (⟨true, Rx.cat (rstr "gpt-4-turbo") (ropt rdate), true⟩, .gpt4_turbo),
    -- "^gpt-4-turbo(-preview)?$"
    (⟨true, Rx.cat (rstr "gpt-4-turbo") (ropt (rstr "-preview")), true⟩,
      .gpt4_turbo),
    -- "^gpt-4-(0125|1106)(-preview)?$"
    (⟨true, Rx.cat (rstr "gpt-4-")
        (Rx.cat (Rx.alt (rstr "0125") (rstr "1106"))
          (ropt (rstr "-preview"))), true⟩, .gpt4_turbo),
    -- "^gpt-4(-\\d{4})?-vision(-preview)?$"
    (⟨true, Rx.cat (rstr "gpt-4")
        (Rx.cat (ropt (Rx.cat (Rx.cls (Cc.lit '-')) (rdig 4)))
          (Rx.cat (rstr "-vision") (ropt (rstr "-preview")))), true⟩,
      .gpt4_turbo),
    -- "^gpt-4-32k-\\d{4}$"
    (⟨true, Rx.cat (rstr "gpt-4-32k-") (rdig 4), true⟩, .gpt4_32k),
    -- "^gpt-4-32k$"
    (⟨true, rstr "gpt-4-32k", true⟩, .gpt4_32k),
    -- "^gpt-4-\\d{4}$"
    (⟨true, Rx.cat (rstr "gpt-4-") (rdig 4), true⟩, .gpt4),
    -- "^gpt-4$"
    (⟨true, rstr "gpt-4", true⟩, .gpt4),
    -- "^gpt-3.5-turbo" (unescaped dot: any character)
    (⟨true, Rx.cat (rstr "gpt-3") (Rx.cat (Rx.cls Cc.anyc) (rstr "5-turbo")),
      false⟩, .turbo),
    -- "^text-embedding-ada-002$"
    (⟨true, rstr "text-embedding-ada-002", true⟩, .turbo),
    -- "^dall-e-\\d{1}$"
    (⟨true, Rx.cat (rstr "dall-e-") (rdig 1), true⟩, .dall_e),
    -- "^o1-mini(-\\d{4}-\\d{2}-\\d{2})?$"
    (⟨true, Rx.cat (rstr "o1-mini") (ropt rdate), true⟩, .o1_mini),
    -- "^o1-pro(-\\d{4}-\\d{2}-\\d{2})?$"
    (⟨true, Rx.cat (rstr "o1-pro") (ropt rdate), true⟩, .o1_pro),
    -- "^o3-pro(-\\d{4}-\\d{2}-\\d{2})?$"
    (⟨true, Rx.cat (rstr "o3-pro") (ropt rdate), true⟩, .o3_pro),
    -- "^o1(-\\d{4}-\\d{2}-\\d{2})?$"
    (⟨true, Rx.cat (rstr "o1") (ropt rdate), true⟩, .o1),
    -- "^o3-mini(-\\d{4}-\\d{2}-\\d{2})?$"
    (⟨true, Rx.cat (rstr "o3-mini") (ropt rdate), true⟩, .o3_mini),
    -- "^o3(-\\d{4}-\\d{2}-\\d{2})?$"
    (⟨true, Rx.cat (rstr "o3") (ropt rdate), true⟩, .o3),
    -- "^o4-mini(-\\d{4}-\\d{2}-\\d{2})?$"
    (⟨true, Rx.cat (rstr "o4-mini") (ropt rdate), true⟩, .o4_mini),
    -- "^codex-mini(-latest|-d{4}-d{2}-d{2})?$" (single backslashes in the
    -- source string, so each `\d` is the literal character d)
    (⟨true, Rx.cat (rstr "codex-mini")
        (ropt (Rx.alt (rstr "-latest")
          (Rx.cat (rstr "-") (Rx.cat (rrep (Rx.cls (Cc.lit 'd')) 4)
            (Rx.cat (rstr "-") (Rx.cat (rrep (Rx.cls (Cc.lit 'd')) 2)
              (Rx.cat (rstr "-") (rrep (Rx.cls (Cc.lit 'd')) 2)))))))),
      true⟩, .codex_mini) ]

def lookupFamilyMap (model : String) (dflt : OpenAIModelFamily) :
    List (JsRegex × OpenAIModelFamily) → OpenAIModelFamily
  | [] => dflt
  | (re, fam) :: rest =>
    if re.test model then fam else lookupFamilyMap model dflt rest

/-- `getOpenAIModelFamily(model, defaultFamily)`. -/
def getOpenAIModelFamily (model : String) (dflt : OpenAIModelFamily) :
    OpenAIModelFamily :=
  lookupFamilyMap model dflt OPENAI_MODEL_FAMILY_MAP

/-- `getClaudeModelFamily(model)`. -/
def getClaudeModelFamily (model : String) : AnthropicModelFamily :=
  if strContains model "opus" then .claudeOpus else .claude

/-- `getGoogleAIModelFamily(model)`. -/
def getGoogleAIModelFamily (model : String) : GoogleAIModelFamily :=
  if strContains model "ultra" && !strContains model "imagen" then .geminiUltra
  else if strContains model "flash" then .geminiFlash
  else .geminiPro

/-- `getGcpModelFamily(model)`. -/
def getGcpModelFamily (model : String) : GcpModelFamily :=
  if strContains model "opus" then .gcpClaudeOpus else .gcpClaude

/-- Body of the end-anchored suffix regex `-(latest|\d\{4\}(-\d\{2\})\{0,2\})$`
used by `getMistralAIModelFamily`. -/
def mistralSuffixRx : Rx :=
  Rx.cat (Rx.cls (Cc.lit '-'))
    (Rx.alt (rstr "latest")
      (Rx.cat (rdig 4)
        (Rx.alt Rx.eps
          (Rx.alt (Rx.cat (Rx.cls (Cc.lit '-')) (rdig 2))
            (Rx.cat (Rx.cat (Rx.cls (Cc.lit '-')) (rdig 2))
              (Rx.cat (Rx.cls (Cc.lit '-')) (rdig 2)))))))

/-- JS `s.replace(/re$/, "")`: deletes the leftmost match that extends to
the end of the string; the string is unchanged when nothing matches. -/
def stripEndMatch (r : Rx) : List Char → List Char
  | [] => []
  | a :: s => if rxFull r (a :: s) then [] else a :: stripEndMatch r s

/-- `getMistralAIModelFamily(model)`: strips the version suffix, then the
big `switch` (duplicate `case` labels collapse onto their first arm, as
in TS). -/
def getMistralAIModelFamily (model : String) : MistralAIModelFamily :=
  let pruned : String := ⟨stripEndMatch mistralSuffixRx model.data⟩
  if pruned = "mistral-tiny" then .mistralTiny
  else if pruned = "mistral-small" then .mistralSmall
  else if pruned = "mistral-medium" then .mistralMedium
  else if pruned = "mistral-large" then .mistralLarge
  else if pruned = "pixtral-large" then .mistralLarge
  else if pruned = "mistral-medium-2505" then .mistralMedium
  else if pruned = "magistral-medium-latest" then .mistralMedium
  else if pruned = "codestral" then .mistralSmall
  else if pruned = "ministral-8b" then .mistralSmall
  else if pruned = "mistral-embed" then .mistralSmall
  else if pruned = "pixtral-12b-2409" then .mistralSmall
  else if pruned = "magistral-small-latest" then .mistralSmall
  else if pruned = "ministral-3b" then .mistralTiny
  else if pruned = "open-mistral-7b" then .mistralTiny
  else if pruned = "pixtral" then .mistralSmall
  else if pruned = "pixtral-12b" then .mistralSmall
  else if pruned = "open-mistral-nemo" then .mistralSmall
  else if pruned = "open-mixtral-8x7b" then .mistralSmall
  else if pruned = "open-codestral-mamba" then .mistralSmall
  else if pruned = "mathstral" then .mistralSmall
  else if pruned = "open-mixtral-8x22b" then .mistralMedium
  else .mistralSmall

/-- `(-v\d+)?(:\d+)*`, the version/revision tail of AWS model ids. -/
def awsVerSuffixRx : Rx :=
  Rx.cat (ropt (Rx.cat (rstr "-v") rdigits1))
    (Rx.star (Rx.cat (Rx.cls (Cc.lit ':')) rdigits1))

/-- Splits a list at its first `.`: `some (before, after)` or `none`. -/
def splitAtDot : List Char → Option (List Char × List Char)
  | [] => none
  | a :: s =>
    if a = '.' then some ([], s)
    else (splitAtDot s).map (fun p => (a :: p.1, p.2))

/-- Shortest nonempty initial segment of the input whose remainder fully
matches `awsVerSuffixRx` (the non-greedy `(.+?)` capture). -/
def findAwsMid (pre : List Char) : List Char → Option (List Char)
  | [] => none
  | a :: rest =>
    if rxFull awsVerSuffixRx rest then some (pre ++ [a])
    else findAwsMid (pre ++ [a]) rest

/-- JS `model.replace(/^(\w+)\.(.+?)(-v\d+)?(:\d+)*$/, "$2")`: when the
whole string matches, the result is the second capture group (the model
id between vendor prefix and version tail); otherwise the string is
unchanged. -/
def deAwsify (s : String) : String :=
  match splitAtDot s.data with
  | none => s
  | some (w, tl) =>
    if w ≠ [] ∧ w.all (Cc.testc Cc.wordc) then
      match findAwsMid [] tl with
      | some mid => ⟨mid⟩
      | none => s
    else s

/-- `getAwsBedrockModelFamily(model)`. -/
def getAwsBedrockModelFamily (model : String) : AwsBedrockModelFamily :=
  let deAwsified := deAwsify model
  if strContains model "claude" || strContains model "anthropic" then
    .awsClaude (getClaudeModelFamily deAwsified)
  else if strContains model "tral" then
    .awsMistral (getMistralAIModelFamily deAwsified)
  else .awsClaude .claude

def lookupAzureMap (modified : String) (dflt : ModelFamily) :
    List (JsRegex × OpenAIModelFamily) → ModelFamily
  | [] => dflt
  | (re, fam) :: rest =>
    if re.test modified then .azure fam else lookupAzureMap modified dflt rest

/-- `getAzureOpenAIModelFamily(model, defaultFamily)` (default argument
`azure-gpt4`). -/
def getAzureOpenAIModelFamily (model : String) (dflt : ModelFamily) :
    ModelFamily :=
  let modified :=
    replaceFirstStr (replaceFirstStr model "gpt-35-turbo" "gpt-3.5-turbo")
      "azure-" ""
  lookupAzureMap modified dflt OPENAI_MODEL_FAMILY_MAP

/-- The request fields read by `getModelFamilyForRequest`. -/
structure QueueReq where
  service : LLMService
  outboundApi : APIFormat
  modelFamily : Option ModelFamily
  bodyModel : Option String
deriving DecidableEq, Repr

/-- `getModelFamilyForRequest(req)`.  In the source, the shared
`"openai" | "openai-text" | "openai-image"` case ends with `break`; the
`if (req.service === "xai")` block that follows it is unreachable dead
code and therefore contributes nothing to the function's value. -/
def getModelFamilyForRequest (req : QueueReq) : ModelFamily :=
  match req.modelFamily with
  | some f => f
  | none =>
    let model := req.bodyModel.getD "gpt-3.5-turbo"
    match req.service with
    | .aws => .aws (getAwsBedrockModelFamily model)
    | .gcp => .gcp (getGcpModelFamily model)
    | .azure => getAzureOpenAIModelFamily model (.azure .gpt4)
    | .qwen => .qwen
    | _ =>
      match req.outboundApi with
      | .anthropicChat => .anthropic (getClaudeModelFamily model)
      | .anthropicText => .anthropic (getClaudeModelFamily model)
      | .openai | .openaiText | .openaiImage =>
        if req.service = .deepseek then .deepseek
        else .openai (getOpenAIModelFamily model .gpt4)
      | .googleAIFmt => .googleAI (getGoogleAIModelFamily model)
      | .mistralAIFmt => .mistral (getMistralAIModelFamily model)
      | .mistralText => .mistral (getMistralAIModelFamily model)
      | .openaiResponses => .openai (getOpenAIModelFamily model .gpt4)

/- ---------------------------------------------------------------------
   Moonshot key provider (src/shared/key-management/moonshot/provider.ts)
   and the shared KeyPool operations that route to it
   (src/shared/key-management/key-pool.ts).
   --------------------------------------------------------------------- -/

/-- `MoonshotModelFamily`: the provider only ever uses the single family
`"moonshot"` (`modelFamilies: ["moonshot"]`). -/
inductive MoonshotModelFamily where
  | moonshot
deriving DecidableEq, Repr

/-- Per-family token usage `\x7b input, output \x7d`. -/
structure TokenUsage where
  input : Nat
  output : Nat
deriving DecidableEq, Repr

/-- A Moonshot credential record.  `hash` is the sha-256 handle of the
secret; distinct configured secrets therefore have distinct hashes, and
in-place mutation of a record found by hash is modelled by replacing the
first list entry with that hash. -/
structure MoonshotKey where
  hash : String
  isDisabled : Bool
  isRevoked : Bool
  isOverQuota : Bool
  promptCount : Nat
  lastUsed : Nat
  lastChecked : Nat
  rateLimitedAt : Nat
  rateLimitedUntil : Nat
  modelFamilies : List MoonshotModelFamily
  tokenUsage : List (MoonshotModelFamily × TokenUsage)
deriving DecidableEq, Repr

/-- A fresh key as built by the provider constructor. -/
def freshMoonshotKey (hash : String) : MoonshotKey :=
  { hash := hash
    isDisabled := false
    isRevoked := false
    isOverQuota := false
    promptCount := 0
    lastUsed := 0
    lastChecked := 0
    rateLimitedAt := 0
    rateLimitedUntil := 0
    modelFamilies := [.moonshot]
    tokenUsage := [] }

/-- A `Partial<MoonshotKey>` patch over the mutable state fields, merged
field-wise by `Object.assign` (the identity fields `key`, `hash` and
`service` are never patched in the codebase). -/
structure MoonshotKeyPatch where
  isDisabled : Option Bool := none
  isRevoked : Option Bool := none
  isOverQuota : Option Bool := none
  promptCount : Option Nat := none
  lastUsed : Option Nat := none
  lastChecked : Option Nat := none
  rateLimitedAt : Option Nat := none
  rateLimitedUntil : Option Nat := none
  modelFamilies : Option (List MoonshotModelFamily) := none
  tokenUsage : Option (List (MoonshotModelFamily × TokenUsage)) := none
deriving DecidableEq, Repr

/-- `Object.assign(key, patch)`: fields present in the patch overwrite the
key's fields. -/
def applyPatch (p : MoonshotKeyPatch) (k : MoonshotKey) : MoonshotKey :=
  { k with
    isDisabled := p.isDisabled.getD k.isDisabled
    isRevoked := p.isRevoked.getD k.isRevoked
    isOverQuota := p.isOverQuota.getD k.isOverQuota
    promptCount := p.promptCount.getD k.promptCount
    lastUsed := p.lastUsed.getD k.lastUsed
    lastChecked := p.lastChecked.getD k.lastChecked
    rateLimitedAt := p.rateLimitedAt.getD k.rateLimitedAt
    rateLimitedUntil := p.rateLimitedUntil.getD k.rateLimitedUntil
    modelFamilies := p.modelFamilies.getD k.modelFamilies
    tokenUsage := p.tokenUsage.getD k.tokenUsage }

/-- `this.keys.find(k => k.hash === hash)` followed by an in-place
mutation: rewrite the first entry with the given hash. -/
def updateFirstByHash (f : MoonshotKey → MoonshotKey) (hash : String) :
    List MoonshotKey → List MoonshotKey
  | [] => []
  | k :: ks =>
    if k.hash = hash then f k :: ks
    else k :: updateFirstByHash f hash ks

/-- `MoonshotKeyProvider.update(hash, patch)`: no-op when the hash is
unknown. -/
def msUpdate (keys : List MoonshotKey) (hash : String)
    (p : MoonshotKeyPatch) : List MoonshotKey :=
  updateFirstByHash (applyPatch p) hash keys

/-- `RATE_LIMIT_LOCKOUT` (ms). -/
def RATE_LIMIT_LOCKOUT : Nat := 2000

/-- `KEY_REUSE_DELAY` (ms). -/
def KEY_REUSE_DELAY : Nat := 500

/-- `MoonshotKeyProvider.get(model)`.  The source selects
`availableKeys[Math.floor(Math.random() * availableKeys.length)]` among
the keys with `!isDisabled`; the random draw is modelled by an arbitrary
`pick : Nat` reduced modulo the number of available keys, which ranges
over exactly the indices the source can choose.  The chosen record is
mutated (`lastUsed := now`, then `throttle`, i.e. `rateLimitedAt := now`
and `rateLimitedUntil := max(rateLimitedUntil, now + KEY_REUSE_DELAY)`)
and a value copy of it is returned; with no available key the source
throws `"No Moonshot keys available"`, modelled as `none`.  The model
argument is unused by the source. -/
def msGet (keys : List MoonshotKey) (now pick : Nat) :
    Option (MoonshotKey × List MoonshotKey) :=
  let avail := keys.filter (fun k => !k.isDisabled)
  match avail[pick % avail.length]? with
  | none => none
  | some k0 =>
    let k1 : MoonshotKey :=
      { k0 with
        lastUsed := now
        rateLimitedAt := now
        rateLimitedUntil := max k0.rateLimitedUntil (now + KEY_REUSE_DELAY) }
    some (k1, updateFirstByHash (fun _ => k1) k0.hash keys)

/-- `MoonshotKeyProvider.markRateLimited(keyHash)`. -/
def msMarkRateLimited (keys : List MoonshotKey) (hash : String) (now : Nat) :
    List MoonshotKey :=
  updateFirstByHash
    (fun k => { k with
      rateLimitedAt := now
      rateLimitedUntil := now + RATE_LIMIT_LOCKOUT }) hash keys

/-- `MoonshotKeyProvider.disable(key)`: only sets `isDisabled := true`. -/
def msDisable (keys : List MoonshotKey) (hash : String) : List MoonshotKey :=
  updateFirstByHash (fun k => { k with isDisabled := true }) hash keys

inductive DisableReason where
  | quota | revoked
deriving DecidableEq, Repr

/-- `KeyPool.disable(key, reason)` routed to the Moonshot provider:
`provider.disable(key)`, then `update(hash, \x7b isRevoked \x7d)`, then —
because the provider is in the `instanceof` list — `update(hash,
\x7b isOverQuota \x7d)`. -/
def keyPoolDisable (keys : List MoonshotKey) (hash : String)
    (reason : DisableReason) : List MoonshotKey :=
  let a := msDisable keys hash
  let b := msUpdate a hash { isRevoked := some (reason = DisableReason.revoked) }
  msUpdate b hash { isOverQuota := some (reason = DisableReason.quota) }

/-- `MoonshotKeyProvider.recheck()`: guarded by `checker` existence and
`config.checkKeys`; for every key it resets `isOverQuota`, `isDisabled`
and `lastChecked` via `update` (the asynchronous `checker.checkKey` call
is external I/O and not part of the synchronous state change). -/
def msRecheck (hasChecker checkKeys : Bool) (keys : List MoonshotKey) :
    List MoonshotKey :=
  if !hasChecker || !checkKeys then keys
  else
    (keys.map MoonshotKey.hash).foldl
      (fun acc h =>
        msUpdate acc h
          { isOverQuota := some false
            isDisabled := some false
            lastChecked := some 0 })
      keys

/-- Modelled from the spec: the key-pool `get` contract of §4.1, which the
moonshot provider is claimed to implement.  Eligibility is `!isDisabled`,
`now ≥ rateLimitedUntil` and `family ∈ modelFamilies`; selection is
least-recently-used by `lastUsed` with ties broken by hash lexicographic
order; with no eligible key the call fails with `NoKeysAvailable`. -/
def specEligible (now : Nat) (family : MoonshotModelFamily)
    (k : MoonshotKey) : Bool :=
  !k.isDisabled && decide (k.rateLimitedUntil ≤ now)
    && k.modelFamilies.contains family

/-- Hash lexicographic order on the character lists of the two hashes. -/
def hashLtAux : List Char → List Char → Bool
  | [], [] => false
  | [], _ :: _ => true
  | _ :: _, [] => false
  | a :: s, b :: t => if a = b then hashLtAux s t else a < b

def hashLt (a b : String) : Bool := hashLtAux a.data b.data

/-- Modelled from the spec: the least-recently-used eligible key (ties by
hash lexicographic order), or `none` when no key is eligible. -/
def specLRUChoice (keys : List MoonshotKey) (now : Nat)
    (family : MoonshotModelFamily) : Option MoonshotKey :=
  match keys.filter (specEligible now family) with
  | [] => none
  | h :: t =>
    some (t.foldl
      (fun best k =>
        if k.lastUsed < best.lastUsed
            || (k.lastUsed = best.lastUsed && hashLt k.hash best.hash)
        then k else best) h)

/- ---------------------------------------------------------------------
   Upstream error handlers (src/proxy/middleware/response/index.ts).
   --------------------------------------------------------------------- -/

/-- Effects of `handleAnthropicAwsBadRequestError`: whether the key's
`requiresPreamble` flag is set, whether the request is re-enqueued (a
`RetryableError` is thrown), and whether the key is disabled. -/
structure AnthropicBadReqEffects where
  setRequiresPreamble : Bool
  reenqueued : Bool
  disabled : Option DisableReason
deriving DecidableEq, Repr

/-- The message prefix tested by the handler, a template literal with two
real newline characters around `Human:`. -/
def preambleMsg : String := "prompt must start with \"\n\nHuman:\" turn"

/-- `handleAnthropicAwsBadRequestError(req, errorPayload)` as a function
of the upstream error message. -/
def handleAnthropicAwsBadRequestError (message : String) :
    AnthropicBadReqEffects :=
  if strStarts message preambleMsg then
    -- keyPool.update(req.key, \x7b requiresPreamble: true \x7d); reenqueue; retry
    { setRequiresPreamble := true, reenqueued := true, disabled := none }
  else if ciContains message "usage blocked until"
      || ciContains message "credit balance is too low"
      || ciContains message "You will regain access on"
      || ciContains message "reached your specified API usage limits" then
    { setRequiresPreamble := false, reenqueued := false,
      disabled := some .quota }
  else if ciContains message "organization has been disabled"
      || ciStarts message "operation not allowed"
      || ciContains message "credential is only authorized for use with Claude Code" then
    { setRequiresPreamble := false, reenqueued := false,
      disabled := some .revoked }
  else
    { setRequiresPreamble := false, reenqueued := false, disabled := none }

/-- A Google AI credential record (the fields read by the 429 handler). -/
structure GoogleAIKey where
  hash : String
  isDisabled : Bool
  isRevoked : Bool
  isOverQuota : Bool
  modelFamilies : List GoogleAIModelFamily
  overQuotaFamilies : List GoogleAIModelFamily
deriving DecidableEq, Repr

/-- The typed update object built by `handleGoogleAIRateLimitError`
(`GoogleAIPartialUpdate`): exactly `modelFamilies`, `isOverQuota` and
`overQuotaFamilies`; in particular it cannot touch `isDisabled` or
`isRevoked`. -/
structure GoogleAIPartialUpdate where
  modelFamilies : List GoogleAIModelFamily
  isOverQuota : Bool
  overQuotaFamilies : List GoogleAIModelFamily
deriving DecidableEq, Repr

/-- Effects of `handleGoogleAIRateLimitError`. -/
structure GoogleRLEffects where
  disabledRevoked : Bool
  markedRateLimited : Bool
  keyUpdate : Option GoogleAIPartialUpdate
  reenqueued : Bool
deriving DecidableEq, Repr

/-- The `keyDeadMsgs` test (both patterns are case-insensitive plain-text
searches over `JSON.stringify(errorPayload.error)`). -/
def googleKeyDead (text : String) : Bool :=
  ciContains text "GenerateContentRequestsPerMinutePerProjectPerRegion"
    || ciContains text "\"quota_limit_value\":\"0\""

/-- The `quotaExhaustedMsgs` test: each pattern is tried on the stringified
error and on the lowercased error message. -/
def googleQuotaExhausted (text errorMessage : String) : Bool :=
  (ciContains text "quota exceeded" || ciContains errorMessage "quota exceeded")
    || ((ciContains text "free tier" || ciContains text "free_tier")
      || (ciContains errorMessage "free tier" || ciContains errorMessage "free_tier"))
    || (ciContains text "quota limit" || ciContains errorMessage "quota limit")

/-- The model-family determination of the handler: `includes('pro')` is
checked first, then `flash`, then `ultra`. -/
def googleFamilyToRemove (modelName : String) : Option GoogleAIModelFamily :=
  if strContains modelName "pro" then some .geminiPro
  else if strContains modelName "flash" then some .geminiFlash
  else if strContains modelName "ultra" then some .geminiUltra
  else none

/-- `handleGoogleAIRateLimitError(req, errorPayload)` as a function of the
assigned key, `req.body?.model`, `errorPayload.error?.status`, the
stringified error `text` and the lowercased `errorMessage`. -/
def handleGoogleAIRateLimitError (key : GoogleAIKey)
    (bodyModel : Option String) (status : Option String)
    (text errorMessage : String) : GoogleRLEffects :=
  match status with
  | some "RESOURCE_EXHAUSTED" =>
    if googleKeyDead text then
      { disabledRevoked := true, markedRateLimited := false,
        keyUpdate := none, reenqueued := false }
    else
      match bodyModel with
      | some modelName =>
        if googleQuotaExhausted text errorMessage then
          match googleFamilyToRemove modelName with
          | some fam =>
            { disabledRevoked := false
              markedRateLimited := false
              keyUpdate := some
                { modelFamilies := key.modelFamilies.filter (· ≠ fam)
                  isOverQuota := true
                  overQuotaFamilies :=
                    if key.overQuotaFamilies.contains fam then
                      key.overQuotaFamilies
                    else key.overQuotaFamilies ++ [fam] }
              reenqueued := true }
          | none =>
            -- family undeterminable: markRateLimited, then still re-enqueue
            { disabledRevoked := false, markedRateLimited := true,
              keyUpdate := none, reenqueued := true }
        else
          { disabledRevoked := false, markedRateLimited := true,
            keyUpdate := none, reenqueued := true }
      | none =>
        { disabledRevoked := false, markedRateLimited := true,
          keyUpdate := none, reenqueued := true }
  | _ =>
    { disabledRevoked := false, markedRateLimited := false,
      keyUpdate := none, reenqueued := false }

/- ---------------------------------------------------------------------
   SSE message transformer (SSEMessageTransformer._transform and
   createInitialMessage).
   --------------------------------------------------------------------- -/

/-- The `delta` of an OpenAI `chat.completion.chunk` choice. -/
structure OaiDelta where
  role : Option String
  content : Option String
deriving DecidableEq, Repr

structure OaiChoice where
  index : Nat
  delta : OaiDelta
  finishReason : Option String
deriving DecidableEq, Repr

structure OaiChunk where
  id : String
  object : String
  model : String
  choices : List OaiChoice
deriving DecidableEq, Repr

/-- A transformed SSE event: either an OpenAI chunk or an event of another
dialect (AnthropicV2 / Mistral), which the first-message logic ignores. -/
inductive SSEEvent where
  | oai : OaiChunk → SSEEvent
  | nonOai : String → SSEEvent
deriving DecidableEq, Repr

/-- `eventIsOpenAIEvent(event)`: `event?.object === "chat.completion.chunk"`. -/
def eventIsOpenAIEvent : SSEEvent → Bool
  | .oai c => c.object = "chat.completion.chunk"
  | .nonOai _ => false

/-- `createInitialMessage(event)`: copy of the event whose every choice
has `delta = \x7b role: "assistant", content: "" \x7d`. -/
def createInitialMessage (c : OaiChunk) : OaiChunk :=
  { c with
    choices := c.choices.map (fun ch =>
      { ch with delta := { role := some "assistant", content := some "" } }) }

def createInitialEvent : SSEEvent → SSEEvent
  | .oai c => .oai (createInitialMessage c)
  | e => e

/-- Mutable state of the transformer: `lastPosition`, `msgCount` and the
dialect-specific aggregation state. -/
structure SSEState (σ : Type) where
  lastPosition : Nat
  msgCount : Nat
  tstate : σ
deriving Repr

/-- Result of the transform function selected by `getTransformer`:
`(event?, newPosition, newState)`. -/
abbrev SSETransformFn (σ : Type) :=
  String → Nat → Nat → σ → Option SSEEvent × Nat × σ

/-- One `_transform` step on one SSE message: runs the transform function
(with the pre-increment `msgCount` as index), drops the first message when
the input format is OpenAI and it contains `prompt_filter_results` (the
Azure OpenAI moderation event), synthesizes the initial OpenAI message in
front of the first transformed OpenAI event, and otherwise pushes the
transformed event (or nothing for unmapped events).  Returns the new
state, the pushed events and whether `originalMessage` was emitted. -/
def sseTransformStep {σ : Type} (inputFormat : APIFormat)
    (fn : SSETransformFn σ) (st : SSEState σ) (msg : String) :
    SSEState σ × List SSEEvent × Bool :=
  let idx := st.msgCount
  let r := fn msg st.lastPosition idx st.tstate
  let st' : SSEState σ :=
    { lastPosition := r.2.1, msgCount := idx + 1, tstate := r.2.2 }
  if inputFormat = APIFormat.openai && st'.msgCount ≤ 1
      && strContains msg "prompt_filter_results" then
    (st', [], false)
  else
    match r.1 with
    | none => (st', [], true)
    | some ev =>
      if st'.msgCount = 1 && eventIsOpenAIEvent ev then
        (st', [createInitialEvent ev, ev], true)
      else (st', [ev], true)

/- ---------------------------------------------------------------------
   Info page cache (buildInfo / CACHE_TTL).
   --------------------------------------------------------------------- -/

/-- `CACHE_TTL` (ms). -/
def CACHE_TTL : Nat := 2000

/-- The module-level cache variables `cachedInfo` and `cacheTime`. -/
structure InfoCache (α : Type) where
  cachedInfo : Option α
  cacheTime : Nat
deriving DecidableEq, Repr

/-- `buildInfo`'s caching skeleton, abstracted over the freshly computed
info document: returns the cached document when
`cacheTime + CACHE_TTL > Date.now()`, otherwise computes and stores a new
one.  Mirroring the source, `cacheTime` is never reassigned — only
`cachedInfo` is written on the return path. -/
def buildInfo {α : Type} (st : InfoCache α) (now : Nat) (fresh : α) :
    Option α × InfoCache α :=
  if st.cacheTime + CACHE_TTL > now then (st.cachedInfo, st)
  else (some fresh, { st with cachedInfo := some fresh })

/- ---------------------------------------------------------------------
   Context size validation
   (src/proxy/middleware/request/preprocessors/validate-context-size.ts).
   --------------------------------------------------------------------- -/

/-- `Number.MAX_SAFE_INTEGER`. -/
def MAX_SAFE_INTEGER : Nat := 9007199254740991

/-- `GOOGLE_AI_MAX_CONTEXT` (hard-coded). -/
def GOOGLE_AI_MAX_CONTEXT : Nat := 84000

/-- `MISTRAL_AI_MAX_CONTENT` (hard-coded). -/
def MISTRAL_AI_MAX_CONTENT : Nat := 131072

/-- The deployment configuration values read by the preprocessor. -/
structure VcsConfig where
  maxContextTokensOpenAI : Nat
  maxContextTokensAnthropic : Nat
deriving DecidableEq, Repr

/-- Shorthand for one `model.match(/.../)` test. -/
def jt (s : Bool) (r : Rx) (e : Bool) (m : String) : Bool :=
  JsRegex.test ⟨s, r, e⟩ m

/-- The ordered regex table choosing `modelMax`, transcribed
branch-for-branch from the preprocessor. -/
def modelMaxTable (model : String) : Nat :=
  -- /gpt-3.5-turbo-16k/
  if jt false (Rx.cat (rstr "gpt-3")
      (Rx.cat (Rx.cls Cc.anyc) (rstr "5-turbo-16k"))) false model then 16384
  -- /^gpt-4o/
  else if jt true (rstr "gpt-4o") false model then 128000
  -- /^gpt-4.5/ (unescaped dot)
  else if jt true (Rx.cat (rstr "gpt-4") (Rx.cat (Rx.cls Cc.anyc) (rstr "5")))
      false model then 128000
  -- /^gpt-4\.1(-\d\{4\}-\d\{2\}-\d\{2\})?$/
  else if jt true (Rx.cat (rstr "gpt-4.1") (ropt rdate)) true model then
    1000000
  -- /^gpt-4\.1-mini(...)?$/
  else if jt true (Rx.cat (rstr "gpt-4.1-mini") (ropt rdate)) true model then
    1000000
  -- /^gpt-4\.1-nano(...)?$/
  else if jt true (Rx.cat (rstr "gpt-4.1-nano") (ropt rdate)) true model then
    1000000
  -- /^chatgpt-4o/
  else if jt true (rstr "chatgpt-4o") false model then 128000
  -- /gpt-4-turbo(-\d\{4\}-\d\{2\}-\d\{2\})?$/
  else if jt false (Rx.cat (rstr "gpt-4-turbo") (ropt rdate)) true model then
    131072
  -- /gpt-4-turbo(-preview)?$/
  else if jt false (Rx.cat (rstr "gpt-4-turbo") (ropt (rstr "-preview")))
      true model then 131072
  -- /gpt-4-(0125|1106)(-preview)?$/
  else if jt false (Rx.cat (rstr "gpt-4-")
      (Rx.cat (Rx.alt (rstr "0125") (rstr "1106"))
        (ropt (rstr "-preview")))) true model then 131072
  -- /^gpt-4(-\d\{4\})?-vision(-preview)?$/
  else if jt true (Rx.cat (rstr "gpt-4")
      (Rx.cat (ropt (Rx.cat (Rx.cls (Cc.lit '-')) (rdig 4)))
        (Rx.cat (rstr "-vision") (ropt (rstr "-preview"))))) true model then
    131072
  -- /^o3-mini(...)?$/
  else if jt true (Rx.cat (rstr "o3-mini") (ropt rdate)) true model then
    200000
  -- /^o3(...)?$/
  else if jt true (Rx.cat (rstr "o3") (ropt rdate)) true model then 200000
  -- /^o4-mini(...)?$/
  else if jt true (Rx.cat (rstr "o4-mini") (ropt rdate)) true model then
    200000
  -- /^codex-mini(-latest|-\d\{4\}-\d\{2\}-\d\{2\})?$/ (regex literal: real
  -- digit classes, unlike the map entry in models.ts)
  else if jt true (Rx.cat (rstr "codex-mini")
      (ropt (Rx.alt (rstr "-latest") rdate))) true model then 200000
  -- /^o1(...)?$/
  else if jt true (Rx.cat (rstr "o1") (ropt rdate)) true model then 200000
  -- /^o1-mini(...)?$/
  else if jt true (Rx.cat (rstr "o1-mini") (ropt rdate)) true model then
    128000
  -- /^o1-pro(...)?$/
  else if jt true (Rx.cat (rstr "o1-pro") (ropt rdate)) true model then
    200000
  -- /^o3-pro(...)?$/
  else if jt true (Rx.cat (rstr "o3-pro") (ropt rdate)) true model then
    200000
  -- /^o1-preview(...)?$/
  else if jt true (Rx.cat (rstr "o1-preview") (ropt rdate)) true model then
    128000
  -- /gpt-3.5-turbo/
  else if jt false (Rx.cat (rstr "gpt-3")
      (Rx.cat (Rx.cls Cc.anyc) (rstr "5-turbo"))) false model then 16384
  -- /gpt-4-32k/
  else if jt false (rstr "gpt-4-32k") false model then 32768
  -- /gpt-4/
  else if jt false (rstr "gpt-4") false model then 8192
  -- /^claude-(?:instant-)?v1(?:\.\d)?-100k/
  else if jt true (Rx.cat (rstr "claude-")
      (Rx.cat (ropt (rstr "instant-"))
        (Rx.cat (rstr "v1")
          (Rx.cat (ropt (Rx.cat (rstr ".") (Rx.cls Cc.digit)))
            (rstr "-100k"))))) false model then 100000
  -- /^claude-(?:instant-)?v1(?:\.\d)?$/
  else if jt true (Rx.cat (rstr "claude-")
      (Rx.cat (ropt (rstr "instant-"))
        (Rx.cat (rstr "v1")
          (ropt (Rx.cat (rstr ".") (Rx.cls Cc.digit)))))) true model then
    9000
  -- /^claude-2\.0/
  else if jt true (rstr "claude-2.0") false model then 100000
  -- /^claude-2/
  else if jt true (rstr "claude-2") false model then 200000
  -- /^claude-3/
  else if jt true (rstr "claude-3") false model then 200000
  -- /^claude-(?:sonnet|opus)-4/
  else if jt true (Rx.cat (rstr "claude-")
      (Rx.cat (Rx.alt (rstr "sonnet") (rstr "opus")) (rstr "-4")))
      false model then 200000
  -- /^gemini-/
  else if jt true (rstr "gemini-") false model then 1024000
  -- /^anthropic\.claude-3/
  else if jt true (rstr "anthropic.claude-3") false model then 200000
  -- /^anthropic\.claude-(?:sonnet|opus)-4/
  else if jt true (Rx.cat (rstr "anthropic.claude-")
      (Rx.cat (Rx.alt (rstr "sonnet") (rstr "opus")) (rstr "-4")))
      false model then 200000
  -- /^anthropic\.claude-v2:\d/
  else if jt true (Rx.cat (rstr "anthropic.claude-v2:") (Rx.cls Cc.digit))
      false model then 200000
  -- /^anthropic\.claude/
  else if jt true (rstr "anthropic.claude") false model then 100000
  -- /^deepseek/
  else if jt true (rstr "deepseek") false model then 64000
  -- /^kimi-k2/
  else if jt true (rstr "kimi-k2") false model then 131000
  -- /moonshot/
  else if jt false (rstr "moonshot") false model then 200000
  -- /command[\w-]*-03-202[0-9]/
  else if jt false (Rx.cat (rstr "command")
      (Rx.cat (Rx.star (Rx.cls Cc.wordDash)) (Rx.cat (rstr "-03-202")
        (Rx.cls Cc.digit)))) false model then 256000
  -- /command/ || /cohere/
  else if jt false (rstr "command") false model
      || jt false (rstr "cohere") false model then 128000
  -- /^grok-4/
  else if jt true (rstr "grok-4") false model then 256000
  -- /^grok/
  else if jt true (rstr "grok") false model then 128000
  -- /^magistral/
  else if jt true (rstr "magistral") false model then 40000
  -- /tral/
  else if jt false (rstr "tral") false model then MISTRAL_AI_MAX_CONTENT
  -- unknown model: 200k with a warning
  else 200000

/-- The `proxyMax` value after the `switch` on `req.outboundApi` and the
`proxyMax ||= Number.MAX_SAFE_INTEGER` falsiness adjustment (`none` for
`openai-image`, whose case returns before any check). -/
def effProxyMax (cfg : VcsConfig) : APIFormat → Option Nat
  | .openai | .openaiText | .openaiResponses =>
    some (if cfg.maxContextTokensOpenAI = 0 then MAX_SAFE_INTEGER
      else cfg.maxContextTokensOpenAI)
  | .anthropicChat | .anthropicText =>
    some (if cfg.maxContextTokensAnthropic = 0 then MAX_SAFE_INTEGER
      else cfg.maxContextTokensAnthropic)
  | .googleAIFmt => some GOOGLE_AI_MAX_CONTEXT
  | .mistralAIFmt | .mistralText => some MISTRAL_AI_MAX_CONTENT
  | .openaiImage => none

/-- The `req.tokenizerInfo` fields written on success. -/
structure TokInfo where
  promptTokens : Nat
  outputTokens : Nat
  maxModelTokens : Nat
  maxProxyTokens : Nat
deriving DecidableEq, Repr

/-- Errors thrown by the preprocessor: the zod assertion on the token
counts, and the zod `max` violation (`ContextTooLarge`). -/
inductive VcsError where
  | badTokenCounts
  | contextTooLarge
deriving DecidableEq, Repr

instance {ε α : Type} [DecidableEq ε] [DecidableEq α] :
    DecidableEq (Except ε α) := fun a b =>
  match a, b with
  | .ok x, .ok y =>
    if h : x = y then isTrue (by rw [h])
    else isFalse (fun hc => h (Except.ok.inj hc))
  | .error e, .error f =>
    if h : e = f then isTrue (by rw [h])
    else isFalse (fun hc => h (Except.error.inj hc))
  | .ok _, .error _ => isFalse (fun hc => Except.noConfusion hc)
  | .error _, .ok _ => isFalse (fun hc => Except.noConfusion hc)

/-- `validateContextSize(req)` as a function of the configuration, the
user type (`special` bypasses the proxy limit), the outbound API, the
model and the token counts.  Returns `.ok none` for the `openai-image`
early return and `.ok (some info)` on successful validation. -/
def validateContextSize (cfg : VcsConfig) (specialUser : Bool)
    (api : APIFormat) (model : String) (promptTokens outputTokens : Nat) :
    Except VcsError (Option TokInfo) :=
  if ¬(1 ≤ promptTokens ∧ 1 ≤ outputTokens) then .error .badTokenCounts
  else
    let contextTokens := promptTokens + outputTokens
    match effProxyMax cfg api with
    | none => .ok none
    | some pm =>
      let proxyMax := if specialUser then MAX_SAFE_INTEGER else pm
      let modelMax := modelMaxTable model
      let finalMax := min proxyMax modelMax
      if contextTokens ≤ finalMax then
        .ok (some
          { promptTokens := promptTokens
            outputTokens := outputTokens
            maxModelTokens := modelMax
            maxProxyTokens := proxyMax })
      else .error .contextTooLarge

/- ---------------------------------------------------------------------
   Concrete fixtures used by counterexamples and witnesses.
   --------------------------------------------------------------------- -/

/-- Modelled from the spec: the first event of an OpenAI-dialect upstream
stream, "the OpenAI-style initial event whose choices[].delta =
\x7b role: "assistant", content: "" \x7d" (§4.4). -/
def oaiRoleChunk : OaiChunk :=
  { id := "chatcmpl-1"
    object := "chat.completion.chunk"
    model := "gpt-4"
    choices := [{ index := 0
                  delta := { role := some "assistant", content := some "" }
                  finishReason := none }] }

/-- Modelled from the spec: `passthroughToOpenAI`, the transformer
`getTransformer` selects when the upstream dialect is OpenAI; it returns
the upstream OpenAI event unchanged.  Instantiated on a stream whose
first event is `oaiRoleChunk`. -/
def passthroughFirstEventFn : SSETransformFn Unit :=
  fun _ _ _ s => (some (.oai oaiRoleChunk), 0, s)

/-- A regex that is start-anchored and dies on the two characters `g`,`r`
can match no string beginning with them. -/
def grokBlind (re : JsRegex) : Bool :=
  re.anchorStart && !re.body.nullable && !((re.body.deriv 'g').nullable)
    && decide ((re.body.deriv 'g').deriv 'r' = Rx.emp)

/- ---------------------------------------------------------------------
   Helper lemmas.
   --------------------------------------------------------------------- -/

theorem rxFull_emp : ∀ l : List Char, rxFull Rx.emp l = false := by
  intro l
  induction l with
  | nil => rfl
  | cons a s ih => simpa [rxFull, Rx.deriv] using ih

theorem rxFromStart_emp : ∀ l : List Char, rxFromStart Rx.emp l = false := by
  intro l
  induction l with
  | nil => rfl
  | cons a s ih => simpa [rxFromStart, Rx.deriv, Rx.nullable] using ih

theorem getd_absorb {α : Type} (o : Option α) (a : α) :
    o.getD (o.getD a) = o.getD a := by
  cases o <;> rfl

theorem applyPatch_hash (p : MoonshotKeyPatch) (k : MoonshotKey) :
    (applyPatch p k).hash = k.hash := rfl

theorem applyPatch_absorb (p : MoonshotKeyPatch) (k : MoonshotKey) :
    applyPatch p (applyPatch p k) = applyPatch p k := by
  simp [applyPatch, getd_absorb]

theorem jsTest_gr (re : JsRegex) (h : grokBlind re = true) (m : String)
    (rest : List Char) (hm : m.data = 'g' :: 'r' :: rest) :
    re.test m = false := by
  obtain ⟨sa, bd, ea⟩ := re
  simp only [grokBlind, Bool.and_eq_true, Bool.not_eq_true',
    decide_eq_true_eq] at h
  obtain ⟨⟨⟨h1, h2⟩, h3⟩, h4⟩ := h
  subst h1
  cases ea with
  | true =>
    show rxFull bd m.data = false
    rw [hm]
    show rxFull ((bd.deriv 'g').deriv 'r') rest = false
    rw [h4]
    exact rxFull_emp rest
  | false =>
    show rxFromStart bd m.data = false
    rw [hm]
    show (bd.nullable || ((bd.deriv 'g').nullable
      || rxFromStart ((bd.deriv 'g').deriv 'r') rest)) = false
    rw [h2, h3, h4, rxFromStart_emp]
    rfl

theorem lookup_grok (m : String) (rest : List Char)
    (hm : m.data = 'g' :: 'r' :: rest) :
    ∀ (l : List (JsRegex × OpenAIModelFamily)),
      (l.all fun e => grokBlind e.1) = true →
      ∀ d, lookupFamilyMap m d l = d := by
  intro l hl d
  induction l with
  | nil => rfl
  | cons e rest' ih =>
    rw [List.all_cons, Bool.and_eq_true] at hl
    rw [lookupFamilyMap, jsTest_gr e.1 hl.1 m rest hm]
    simpa using ih hl.2

theorem map_all_grokBlind :
    (OPENAI_MODEL_FAMILY_MAP.all fun e => grokBlind e.1) = true := by decide

/- ---------------------------------------------------------------------
   Claim theorems.
   --------------------------------------------------------------------- -/

/-- C9: `update(h, p)` is idempotent — applying the same patch twice
leaves the Moonshot key pool exactly as applying it once — and an
`update` with a hash not present in the pool leaves the pool unchanged. -/
theorem moonshot_update_idempotent :
    ∀ (keys : List MoonshotKey) (h : String) (p : MoonshotKeyPatch),
      msUpdate (msUpdate keys h p) h p = msUpdate keys h p
      ∧ ((∀ k ∈ keys, k.hash ≠ h) → msUpdate keys h p = keys) := by
  intro keys h p
  constructor
  · induction keys with
    | nil => rfl
    | cons k ks ih =>
      by_cases hk : k.hash = h
      · simp [msUpdate, updateFirstByHash, hk, applyPatch_hash,
          applyPatch_absorb]
      · simp only [msUpdate, updateFirstByHash, hk, if_neg hk] at *
        simp [ih]
  · intro hall
    induction keys with
    | nil => rfl
    | cons k ks ih =>
      have hk : k.hash ≠ h := hall k (List.mem_cons_self k ks)
      simp only [msUpdate, updateFirstByHash, if_neg hk] at *
      exact congrArg (k :: ·) (ih fun x hx => hall x (List.mem_cons_of_mem k hx))

/-- C9 witness: a concrete pool with one key of hash `"a"`; patching the
unknown hash `"zz"` twice equals patching it once, and equals the
original pool. -/
theorem moonshot_update_idempotent_witness :
    msUpdate (msUpdate [freshMoonshotKey "a"] "zz" { isRevoked := some true })
        "zz" { isRevoked := some true }
      = msUpdate [freshMoonshotKey "a"] "zz" { isRevoked := some true }
    ∧ msUpdate [freshMoonshotKey "a"] "zz" { isRevoked := some true }
      = [freshMoonshotKey "a"] :=
  ⟨(moonshot_update_idempotent [freshMoonshotKey "a"] "zz"
      { isRevoked := some true }).1,
   (moonshot_update_idempotent [freshMoonshotKey "a"] "zz"
      { isRevoked := some true }).2 (by decide)⟩

/-- C7: a 400 from the Anthropic family of services whose message starts
with the `prompt must start with "\n\nHuman:" turn` preamble complaint
makes the handler set `requiresPreamble := true` on the key, re-enqueue
the request for retry, and leave the key enabled. -/
theorem anthropic_preamble_retry :
    ∀ message : String, strStarts message preambleMsg = true →
      handleAnthropicAwsBadRequestError message =
        { setRequiresPreamble := true, reenqueued := true, disabled := none } := by
  intro m h
  unfold handleAnthropicAwsBadRequestError
  rw [h]
  rfl

/-- C7 witness: the handler at the exact preamble message. -/
theorem anthropic_preamble_retry_witness :
    handleAnthropicAwsBadRequestError preambleMsg =
      { setRequiresPreamble := true, reenqueued := true, disabled := none } :=
  anthropic_preamble_retry preambleMsg (by decide)

/-- C2: the claim is that after `markRateLimited(k)` at time `t` no `get`
before `t + RATE_LIMIT_LOCKOUT` returns `k`.  `markRateLimited` does set
`rateLimitedAt := t` and `rateLimitedUntil := t + RATE_LIMIT_LOCKOUT`,
but `MoonshotKeyProvider.get` filters only on `isDisabled` and ignores
`rateLimitedUntil`: with a single key marked rate-limited at t = 1000,
`get` at t = 1500 (inside the lockout window) still returns that key. -/
theorem moonshot_get_ignores_rate_limit_eval :
    (msMarkRateLimited [freshMoonshotKey "h1"] "h1" 1000).map
        (fun k => (k.rateLimitedAt, k.rateLimitedUntil))
      = [(1000, 1000 + RATE_LIMIT_LOCKOUT)]
    ∧ (msGet (msMarkRateLimited [freshMoonshotKey "h1"] "h1" 1000) 1500 0).map
        (fun r => r.1.hash) = some "h1"
    ∧ 1000 ≤ 1500 ∧ 1500 < 1000 + RATE_LIMIT_LOCKOUT := by decide

/-- C5: the claim is that `isRevoked → isDisabled` holds in every
reachable key state.  After `KeyPool.disable(k, "revoked")` followed by
the Moonshot `recheck()` (checker present, key checking enabled), the
key has `isRevoked = true` and `isDisabled = false`: `recheck` clears
`isDisabled` unconditionally and never clears `isRevoked`. -/
theorem recheck_breaks_revoked_implies_disabled_eval :
    (msRecheck true true
        (keyPoolDisable [freshMoonshotKey "h1"] "h1" .revoked)).map
      (fun k => (k.isRevoked, k.isDisabled)) = [(true, false)] := by decide

/-- C10: the claim is that a `buildInfo` call within 2000 ms of the
previous one returns the cached document.  The source never assigns
`cacheTime`, so with the cache state reachable after a first call at
t₀ = 10000 (`cacheTime` still 0), a second call at t = 10001 — inside
the TTL window — recomputes and returns the fresh document `2` instead
of the cached `1`. -/
theorem build_info_cache_never_hits_eval :
    (buildInfo (⟨none, 0⟩ : InfoCache Nat) 10000 1).1 = some 1
    ∧ (buildInfo (buildInfo (⟨none, 0⟩ : InfoCache Nat) 10000 1).2 10001 2).1
        = some 2
    ∧ (buildInfo (buildInfo (⟨none, 0⟩ : InfoCache Nat) 10000 1).2 10001 2).2.cacheTime
        = 0
    ∧ 10000 + CACHE_TTL > 10001 := by decide

/-- C4: a Google AI 429 RESOURCE_EXHAUSTED with a quota-exhausted
signature (and not the hard-disabled signature) for a model whose family
is determinable makes the handler issue a key update that removes exactly
that family from `modelFamilies`, records it in `overQuotaFamilies`,
keeps every other family usable, re-enqueues the request, and neither
disables the key (the update object cannot even express `isDisabled`)
nor marks it rate-limited. -/
theorem google_quota_removes_single_family :
    ∀ (key : GoogleAIKey) (m text emsg : String)
      (fam : GoogleAIModelFamily),
      googleKeyDead text = false →
      googleQuotaExhausted text emsg = true →
      googleFamilyToRemove m = some fam →
      ∃ u : GoogleAIPartialUpdate,
        handleGoogleAIRateLimitError key (some m)
            (some "RESOURCE_EXHAUSTED") text emsg =
          { disabledRevoked := false, markedRateLimited := false,
            keyUpdate := some u, reenqueued := true }
        ∧ u.modelFamilies = key.modelFamilies.filter (· ≠ fam)
        ∧ fam ∈ u.overQuotaFamilies
        ∧ (∀ f ∈ key.modelFamilies, f ≠ fam → f ∈ u.modelFamilies)
        ∧ fam ∉ u.modelFamilies := by
  intro key m text emsg fam hdead hquota hfam
  refine ⟨{ modelFamilies := key.modelFamilies.filter (· ≠ fam)
            isOverQuota := true
            overQuotaFamilies :=
              if key.overQuotaFamilies.contains fam then
                key.overQuotaFamilies
              else key.overQuotaFamilies ++ [fam] }, ?_, rfl, ?_, ?_, ?_⟩
  · simp [handleGoogleAIRateLimitError, hdead, hquota, hfam]
  · by_cases hc : key.overQuotaFamilies.contains fam
    · simp only [hc, if_true]
      exact List.mem_of_elem_eq_true hc
    · simp only [hc, if_false]
      exact List.mem_append_right _ (List.mem_singleton_self fam)
  · intro f hf hne
    simp [List.mem_filter, hf, hne]
  · simp [List.mem_filter]

/-- C4 witness: key with families \x7b gemini-pro, gemini-flash \x7d,
request model `gemini-1.5-pro`, error text `Quota exceeded...`: the
update removes `gemini-pro` only and records it over-quota. -/
theorem google_quota_removes_single_family_witness :
    ∃ u : GoogleAIPartialUpdate,
      handleGoogleAIRateLimitError
          ⟨"h", false, false, false, [.geminiPro, .geminiFlash], []⟩
          (some "gemini-1.5-pro") (some "RESOURCE_EXHAUSTED")
          "Quota exceeded for quota metric" "" =
        { disabledRevoked := false, markedRateLimited := false,
          keyUpdate := some u, reenqueued := true }
      ∧ u.modelFamilies =
          List.filter (· ≠ GoogleAIModelFamily.geminiPro)
            [.geminiPro, .geminiFlash]
      ∧ GoogleAIModelFamily.geminiPro ∈ u.overQuotaFamilies
      ∧ (∀ f ∈ ([.geminiPro, .geminiFlash] : List GoogleAIModelFamily),
          f ≠ .geminiPro → f ∈ u.modelFamilies)
      ∧ GoogleAIModelFamily.geminiPro ∉ u.modelFamilies :=
  google_quota_removes_single_family
    ⟨"h", false, false, false, [.geminiPro, .geminiFlash], []⟩
    "gemini-1.5-pro" "Quota exceeded for quota metric" ""
    .geminiPro (by decide) (by decide) (by decide)

/-- C1 counterexample: two enabled, non-rate-limited keys with the
moonshot family; the key of hash `"bb"` is the least-recently-used
eligible key (per the spec's `get` contract), but with random draw 0 the
provider returns the key of hash `"aa"`: `get` is not LRU selection. -/
theorem moonshot_get_not_lru_counterexample :
    specEligible 1000 .moonshot { freshMoonshotKey "aa" with lastUsed := 100 }
      = true
    ∧ specEligible 1000 .moonshot (freshMoonshotKey "bb") = true
    ∧ (msGet [{ freshMoonshotKey "aa" with lastUsed := 100 },
          freshMoonshotKey "bb"] 1000 0).map (fun r => r.1.hash) = some "aa"
    ∧ (specLRUChoice [{ freshMoonshotKey "aa" with lastUsed := 100 },
          freshMoonshotKey "bb"] 1000 .moonshot).map (·.hash) = some "bb"
    ∧ ("aa" : String) ≠ "bb" := by decide

/-- C1 amended: with every key disabled, `get` fails with
`NoKeysAvailable`; otherwise it returns a value copy of the key at the
random index (taken modulo the number of non-disabled keys) among the
non-disabled keys — ignoring rate-limit state and the model's family —
with `lastUsed := now` and the reuse-delay throttle applied
(`rateLimitedAt := now`,
`rateLimitedUntil := max(rateLimitedUntil, now + KEY_REUSE_DELAY)`),
and the underlying record is updated to the same values. -/
theorem moonshot_get_random_characterization :
    ∀ (keys : List MoonshotKey) (now pick : Nat),
      (keys.filter (fun k => !k.isDisabled) = [] →
        msGet keys now pick = none)
      ∧ ∀ k0,
          (keys.filter (fun k => !k.isDisabled))[pick %
            (keys.filter (fun k => !k.isDisabled)).length]? = some k0 →
          msGet keys now pick =
            some ({ k0 with
                      lastUsed := now
                      rateLimitedAt := now
                      rateLimitedUntil :=
                        max k0.rateLimitedUntil (now + KEY_REUSE_DELAY) },
              updateFirstByHash
                (fun _ => { k0 with
                  lastUsed := now
                  rateLimitedAt := now
                  rateLimitedUntil :=
                    max k0.rateLimitedUntil (now + KEY_REUSE_DELAY) })
                k0.hash keys)
          ∧ k0.isDisabled = false := by
  intro keys now pick
  constructor
  · intro h
    simp [msGet, h]
  · intro k0 h
    constructor
    · simp only [msGet]
      rw [h]
    · have hmem : k0 ∈ keys.filter (fun k => !k.isDisabled) :=
        List.getElem?_mem h
      have := List.of_mem_filter hmem
      simpa using this

/-- C1 amended witness: a two-key pool, draw 1 picks the second available
key `"bb"`. -/
theorem moonshot_get_random_characterization_witness :
    msGet [{ freshMoonshotKey "aa" with lastUsed := 100 },
        freshMoonshotKey "bb"] 5 1 =
      some ({ freshMoonshotKey "bb" with
                lastUsed := 5
                rateLimitedAt := 5
                rateLimitedUntil := max 0 (5 + KEY_REUSE_DELAY) },
        updateFirstByHash
          (fun _ => { freshMoonshotKey "bb" with
            lastUsed := 5
            rateLimitedAt := 5
            rateLimitedUntil := max 0 (5 + KEY_REUSE_DELAY) })
          "bb" [{ freshMoonshotKey "aa" with lastUsed := 100 },
            freshMoonshotKey "bb"])
    ∧ (freshMoonshotKey "bb").isDisabled = false :=
  ((moonshot_get_random_characterization
      [{ freshMoonshotKey "aa" with lastUsed := 100 }, freshMoonshotKey "bb"]
      5 1).2 (freshMoonshotKey "bb") (by decide))

/-- C6 counterexample: the upstream dialect is OpenAI, which itself emits
the initial role event as its first event (here passed through
unchanged), so per the claim no initial chunk should be synthesized —
yet `_transform` pushes the synthesized initial message in front of it,
duplicating the role event.  The synthesis condition is
`msgCount === 1 && eventIsOpenAIEvent(...)`, independent of whether the
upstream dialect already emits the event. -/
theorem sse_initial_message_duplicated_counterexample :
    (sseTransformStep .openai passthroughFirstEventFn ⟨0, 0, ()⟩
        "data: first-event").2.1 = [.oai oaiRoleChunk, .oai oaiRoleChunk]
    ∧ ((sseTransformStep .openai passthroughFirstEventFn ⟨0, 0, ()⟩
        "data: first-event").2.1).length = 2
    ∧ eventIsOpenAIEvent (.oai oaiRoleChunk) = true
    ∧ createInitialMessage oaiRoleChunk = oaiRoleChunk := by decide

/-- C6 amended: on the first message (`msgCount = 0`), the transformer
drops an OpenAI-input message containing `prompt_filter_results` with no
client output; otherwise it synthesizes the initial chunk — whose every
choice has `delta = \x7b role: "assistant", content: "" \x7d` — in front
of the first transformed event exactly when that event is an OpenAI
`chat.completion.chunk`, regardless of whether the upstream dialect
already emitted such an event; unmapped events produce no output. -/
theorem sse_first_message_rule :
    ∀ (σ : Type) (fmt : APIFormat) (fn : SSETransformFn σ)
      (st : SSEState σ) (msg : String),
      st.msgCount = 0 →
      ((fmt = APIFormat.openai
          ∧ strContains msg "prompt_filter_results" = true) →
        (sseTransformStep fmt fn st msg).2.1 = [])
      ∧ (¬(fmt = APIFormat.openai
            ∧ strContains msg "prompt_filter_results" = true) →
          (sseTransformStep fmt fn st msg).2.1 =
            match (fn msg st.lastPosition 0 st.tstate).1 with
            | none => []
            | some ev =>
              if eventIsOpenAIEvent ev then [createInitialEvent ev, ev]
              else [ev])
      ∧ ∀ c : OaiChunk,
          (createInitialMessage c).choices.map (fun ch => ch.delta) =
            c.choices.map (fun _ =>
              { role := some "assistant", content := some "" }) := by
  intro σ fmt fn st msg h0
  refine ⟨?_, ?_, ?_⟩
  · rintro ⟨hf, hm⟩
    subst hf
    simp [sseTransformStep, h0, hm]
  · intro hn
    have hcond : (fmt = APIFormat.openai
        && decide (st.msgCount + 1 ≤ 1)
        && strContains msg "prompt_filter_results") = false := by
      by_cases hm : strContains msg "prompt_filter_results" = true
      · have hf : fmt ≠ APIFormat.openai := fun hf => hn ⟨hf, hm⟩
        simp [hf]
      · rw [Bool.not_eq_true] at hm
        simp [hm]
    simp only [sseTransformStep, h0]
    simp only [h0] at hcond
    rw [if_neg (by simpa using hcond)]
    rcases hr : (fn msg st.lastPosition 0 st.tstate).1 with _ | ev
    · simp [hr]
    · simp only [hr]
      by_cases he : eventIsOpenAIEvent ev
      · simp [he]
      · simp [he]
  · intro c
    obtain ⟨i, ob, md, chs⟩ := c
    simp only [createInitialMessage]
    induction chs with
    | nil => rfl
    | cons a t ih => simpa using ih

/-- C6 witness: a non-OpenAI upstream (`anthropic-chat`) whose first
transformed event is an OpenAI chunk gets the synthesized initial
message in front of it. -/
theorem sse_first_message_rule_witness :
    (sseTransformStep .anthropicChat passthroughFirstEventFn ⟨0, 0, ()⟩
        "event: message_start").2.1 =
      [.oai (createInitialMessage oaiRoleChunk), .oai oaiRoleChunk] := by
  have h := ((sse_first_message_rule Unit .anthropicChat
      passthroughFirstEventFn ⟨0, 0, ()⟩ "event: message_start" rfl).2.1
    (by decide))
  simpa [passthroughFirstEventFn, createInitialEvent] using h


/-- C3 counterexample: a special user's request passes
`validateContextSize` with 150 + 50 = 200 context tokens even though
`min(modelMax, proxyMax)` for the deployment-wide OpenAI limit 100 is
100: the preprocessor replaces `proxyMax` by `Number.MAX_SAFE_INTEGER`
for special users, so the claimed bound does not hold for every passing
request. -/
theorem validate_context_size_special_user_counterexample :
    validateContextSize ⟨100, 100⟩ true .openai "gpt-3.5-turbo-16k" 150 50 =
      .ok (some { promptTokens := 150, outputTokens := 50,
                  maxModelTokens := 16384,
                  maxProxyTokens := MAX_SAFE_INTEGER })
    ∧ 150 + 50 > min (modelMaxTable "gpt-3.5-turbo-16k") 100 := by decide

/-- C3 amended: for a non-special user and an outbound API that is
context-checked (everything except `openai-image`, whose case returns
before any check), a request passes `validateContextSize` only if
`promptTokens + outputTokens ≤ min(proxyMax, modelMax)`, where
`modelMax` is chosen by the ordered regex table and `proxyMax` is the
deployment-wide limit for the outbound API (with the configured value 0
meaning unlimited); conversely, a well-formed request exceeding the
bound fails with the `ContextTooLarge` error and so is never
dispatched. -/
theorem validate_context_size_bound :
    ∀ (cfg : VcsConfig) (api : APIFormat) (model : String) (p o : Nat)
      (r : Option TokInfo) (pm : Nat),
      effProxyMax cfg api = some pm →
      (validateContextSize cfg false api model p o = .ok r →
        p + o ≤ min pm (modelMaxTable model))
      ∧ (1 ≤ p → 1 ≤ o → p + o > min pm (modelMaxTable model) →
          validateContextSize cfg false api model p o =
            .error .contextTooLarge) := by
  intro cfg api model p o r pm hpm
  have hfalse : (if (false : Bool) = true then MAX_SAFE_INTEGER else pm) = pm :=
    rfl
  constructor
  · intro hok
    by_cases hw : 1 ≤ p ∧ 1 ≤ o
    · simp only [validateContextSize, if_neg (not_not_intro hw), hpm] at hok
      rw [hfalse] at hok
      by_cases hle : p + o ≤ min pm (modelMaxTable model)
      · exact hle
      · rw [if_neg hle] at hok
        exact absurd hok (by simp)
    · simp only [validateContextSize, if_pos hw] at hok
      exact absurd hok (by simp)
  · intro hp ho hgt
    simp only [validateContextSize, if_neg (not_not_intro (And.intro hp ho)),
      hpm]
    rw [hfalse, if_neg (not_le.mpr hgt)]

/-- C3 amended witness: a non-special OpenAI request within the bound
passes, and the amended theorem yields the bound at that instance. -/
theorem validate_context_size_bound_witness :
    5 + 5 ≤ min 100 (modelMaxTable "gpt-3.5-turbo-16k") :=
  (validate_context_size_bound ⟨100, 100⟩ .openai "gpt-3.5-turbo-16k" 5 5
      (some { promptTokens := 5, outputTokens := 5,
              maxModelTokens := 16384, maxProxyTokens := 100 }) 100
      (by decide)).1 (by decide)

/-- C8: a request with service `xai` and outbound API `openai` (and no
precomputed partition) is partitioned by `getOpenAIModelFamily`, which
maps every Grok model name (any model starting with the characters
`g`,`r`, matched by none of the map's start-anchored patterns) to the
default family `gpt4`; in particular such a request is never partitioned
under the `xai` family through this path — the `req.service === "xai"`
arm in the source is dead code behind a `break`. -/
theorem xai_requests_use_openai_family :
    ∀ (m : String) (rest : List Char),
      getModelFamilyForRequest ⟨.xai, .openai, none, some m⟩ =
        .openai (getOpenAIModelFamily m .gpt4)
      ∧ (m.data = 'g' :: 'r' :: rest →
          getOpenAIModelFamily m .gpt4 = .gpt4)
      ∧ getModelFamilyForRequest ⟨.xai, .openai, none, some m⟩ ≠
          ModelFamily.xai := by
  intro m rest
  have h1 : getModelFamilyForRequest ⟨.xai, .openai, none, some m⟩ =
      .openai (getOpenAIModelFamily m .gpt4) := rfl
  refine ⟨h1, ?_, ?_⟩
  · intro hm
    exact lookup_grok m rest hm OPENAI_MODEL_FAMILY_MAP map_all_grokBlind .gpt4
  · rw [h1]
    intro hc
    exact ModelFamily.noConfusion hc

/-- C8 witness: the Grok model `grok-4` on service xai partitions to the
OpenAI default family `gpt4`, not to `xai`. -/
theorem xai_requests_use_openai_family_witness :
    getOpenAIModelFamily "grok-4" .gpt4 = .gpt4
    ∧ getModelFamilyForRequest ⟨.xai, .openai, none, some "grok-4"⟩ ≠
        ModelFamily.xai :=
  ⟨(xai_requests_use_openai_family "grok-4" ['o', 'k', '-', '4']).2.1
      (by decide),
   (xai_requests_use_openai_family "grok-4" ['o', 'k', '-', '4']).2.2⟩
